import Mathlib

/-!
Verification development for the serial-logger firmware (TI-RTOS SD-card
UART logger).  The definitions below are shallow embeddings of the C
sources: the SD-card lifecycle layer (sd_card.c), the ingestion task
(uart_logger_task.c), the log-forwarding broker (uart_logger.c and its
earlier direct-forwarding variant), and the console line editor and
command dispatcher (cli.c / commands.c).  Hardware and filesystem driver
outcomes are supplied as oracles; hardware-visible side effects are
recorded as event lists so that statements such as "performs no hardware
re-initialization" can be expressed.
-/

namespace SdCard

/-- Hardware-visible actions performed by the SD-card layer.  Each
constructor corresponds to one driver or GPIO call in sd_card.c. -/
inductive HwEvent
  | powerOn      -- GPIO_write(Board_SDCARD_VCC, Board_LED_ON)
  | powerOff     -- GPIO_write(Board_SDCARD_VCC, Board_LED_OFF)
  | busOpen      -- SDSPI_open
  | busClose     -- SDSPI_close
  | probe        -- sd_online: f_getfree liveness probe
  | settleDelay  -- Task_sleep(250) settle delay
  | openLogFile  -- open_file on the log file
  | broadcast    -- pthread_cond_broadcast(&SD_CARD_READY)
  deriving DecidableEq, Repr

/-- Global state touched by sd_card.c: SD_CARD_MOUNTED, the SD-card VCC
GPIO, the SDSPI handle, the LOGFILE handle, and the write-activity LED. -/
structure SdState where
  mounted : Bool
  power : Bool
  busOpen : Bool
  fileOpen : Bool
  led : Bool
  deriving DecidableEq, Repr

/-- Driver oracle for one mount attempt: whether SDSPI_open returns a
handle, whether the f_getfree liveness probe succeeds, and whether
open_file succeeds. -/
structure Driver where
  busOpens : Bool
  online : Bool
  fileOpens : Bool
  deriving DecidableEq, Repr

/-- Result of attempt_sd_mount: a normal return with its boolean result,
the new global state and the list of hardware actions performed, or a
System_abort. -/
inductive MountResult
  | ok (success : Bool) (s : SdState) (events : List HwEvent)
  | sysAbort
  deriving DecidableEq, Repr

/-- Model of attempt_sd_mount (sd_card.c lines 209-261).  Under the
SD_CARD_RW_MUTEX: if SD_CARD_MOUNTED is already set, unlock and return it
without touching any hardware.  Otherwise power the card, open the SPI
bus (System_abort on a NULL handle), probe liveness with f_getfree; on
success open the log file (System_abort if that fails) and broadcast
SD_CARD_READY; on failure close the bus and power the card back off. -/
def attempt_sd_mount (d : Driver) (s : SdState) : MountResult :=
  if s.mounted then
    .ok true s []
  else if !d.busOpens then
    .sysAbort
  else if d.online then
    if d.fileOpens then
      .ok true
        { mounted := true, power := true, busOpen := true, fileOpen := true,
          led := s.led }
        [.powerOn, .busOpen, .probe, .openLogFile, .broadcast]
    else
      .sysAbort
  else
    .ok false
      { mounted := false, power := false, busOpen := false,
        fileOpen := s.fileOpen, led := s.led }
      [.powerOn, .busOpen, .probe, .busClose, .powerOff]

/-- Model of write_sd (sd_card.c lines 318-335).  The f_write outcome is
the oracle: `none` is a FatFS error (return -1, state untouched), `some n`
is a successful write of `n` bytes (toggle the activity LED, return n).
The function never modifies SD_CARD_MOUNTED and never aborts. -/
def write_sd (wres : Option Nat) (s : SdState) : Int × SdState :=
  match wres with
  | none => (-1, s)
  | some n => ((n : Int), { s with led := !s.led })

/-- Outcome of one iteration of the ingestion task's inner read/write
loop (uart_logger_task.c lines 87-107). -/
inductive IngestOutcome
  | wrote (s : SdState) (enqueued : Bool)
  | sysAbort
  | exitUnmounted (s : SdState)
  deriving DecidableEq, Repr

/-- Model of one iteration of the ingestion inner loop
(uart_logger_task.c lines 87-107), after UART_read returned one byte:
if sd_card_mounted(), write the byte with write_sd and System_abort
unless exactly 1 byte was written; otherwise forward to the queue when
FORWARD_UART_LOGS is set; if unmounted, leave the loop. -/
def logger_loop_body (forward : Bool) (wres : Option Nat) (s : SdState) :
    IngestOutcome :=
  if s.mounted then
    match write_sd wres s with
    | (r, s') => if r ≠ 1 then .sysAbort else .wrote s' forward
  else
    .exitUnmounted s

end SdCard

namespace SdPwr

/-- Global state of the power-toggling attempt_sd_mount variant
(the sd_card.c snapshot embedded in commands.c lines 403-491):
SD_CARD_MOUNTED, the VCC GPIO, the SDSPI handle, and FIRST_INIT. -/
structure PwrState where
  mounted : Bool
  power : Bool
  busOpen : Bool
  firstInit : Bool
  deriving DecidableEq, Repr

/-- Result of the power-toggling attempt_sd_mount variant. -/
inductive PwrMountResult
  | ok (success : Bool) (s : PwrState) (events : List SdCard.HwEvent)
  | sysAbort
  deriving DecidableEq, Repr

/-- Model of the attempt_sd_mount variant with the settle delay
(commands.c lines 431-491).  If already mounted, return immediately.
Otherwise: power the card off (precaution), open the SPI bus, sleep
250ms if FIRST_INIT is set, power the card on, System_abort on a NULL
bus handle, probe liveness; on success broadcast, on failure close the
bus and power off.  NOTE: the source never assigns FIRST_INIT = false,
which this model mirrors (firstInit is copied unchanged). -/
def attempt_sd_mount (d : SdCard.Driver) (s : PwrState) : PwrMountResult :=
  if s.mounted then
    .ok true s []
  else
    let ev0 : List SdCard.HwEvent :=
      if s.firstInit then [.powerOff, .busOpen, .settleDelay, .powerOn]
      else [.powerOff, .busOpen, .powerOn]
    if !d.busOpens then
      .sysAbort
    else if d.online then
      .ok true
        { mounted := true, power := true, busOpen := true,
          firstInit := s.firstInit }
        (ev0 ++ [.probe, .broadcast])
    else
      .ok false
        { mounted := false, power := false, busOpen := false,
          firstInit := s.firstInit }
        (ev0 ++ [.probe, .busClose, .powerOff])

/-- Boot state of this variant: unmounted, card unpowered, bus closed,
FIRST_INIT = true. -/
def bootState : PwrState :=
  { mounted := false, power := false, busOpen := false, firstInit := true }

end SdPwr

namespace WaitSd

/-- Phase of a task that entered wait_sd_ready. -/
inductive WaiterPhase
  | blockedOnCond
  | returned
  deriving DecidableEq, Repr

/-- State of the mount flag together with one waiter blocked inside
wait_sd_ready (sd_card.c lines 302-310). -/
structure WSys where
  mounted : Bool
  waiter : WaiterPhase
  deriving DecidableEq, Repr

/-- Interleaving events.  `wake` is the delivery of a wakeup to the
blocked waiter: a pthread_cond_broadcast that was posted earlier (the
waiter still has to reacquire SD_CARD_RW_MUTEX before returning, so the
state may have changed since the broadcast) or a spurious wakeup. -/
inductive WEv
  | mountOk    -- attempt_sd_mount succeeds: sets SD_CARD_MOUNTED, broadcasts
  | unmountEv  -- unmount_sd_card: clears SD_CARD_MOUNTED
  | wake       -- wakeup delivered; wait_sd_ready returns unconditionally
  deriving DecidableEq, Repr

/-- One interleaving step.  Because wait_sd_ready performs a single
pthread_cond_wait with no re-check of SD_CARD_MOUNTED around it, the
waiter transitions to `returned` on any wakeup regardless of the mount
flag. -/
def wstep (s : WSys) : WEv → WSys
  | .mountOk => { mounted := true, waiter := s.waiter }
  | .unmountEv => { mounted := false, waiter := s.waiter }
  | .wake => { mounted := s.mounted, waiter := .returned }

/-- Run a sequence of interleaving events. -/
def wrun (s : WSys) (evs : List WEv) : WSys :=
  evs.foldl wstep s

end WaitSd

/-- C1: if the SD card is already mounted, attempt_sd_mount returns true
immediately, performs no hardware action at all (no power toggle, no bus
open, no liveness probe), and leaves the whole state — mount flag,
log-file handle, power — unchanged. -/
theorem attempt_sd_mount_idempotent (d : SdCard.Driver) (s : SdCard.SdState)
    (h : s.mounted = true) :
    SdCard.attempt_sd_mount d s = .ok true s [] := by
  unfold SdCard.attempt_sd_mount
  rw [h]
  simp

/-- Witness for C1: a concrete mounted state on which the idempotence
theorem applies. -/
theorem attempt_sd_mount_idempotent_witness :
    SdCard.attempt_sd_mount ⟨true, true, true⟩
        ⟨true, true, true, true, false⟩ =
      .ok true ⟨true, true, true, true, false⟩ [] :=
  attempt_sd_mount_idempotent ⟨true, true, true⟩
    ⟨true, true, true, true, false⟩ (by decide)

/-- C2: wait_sd_ready wraps no loop around its pthread_cond_wait, so a
stale wakeup lets it return while the card is unmounted.  Concrete
trace: a waiter is blocked while unmounted; attempt_sd_mount succeeds
and broadcasts; unmount_sd_card runs before the waiter reacquires the
mutex; the waiter then wakes and returns — observing mounted = false,
contrary to the claim that the wait re-checks the predicate. -/
theorem wait_sd_ready_stale_wakeup_returns_unmounted :
    WaitSd.wrun ⟨false, .blockedOnCond⟩ [.mountOk, .unmountEv, .wake] =
      ⟨false, .returned⟩ := by
  decide

/-- C7: FIRST_INIT is never cleared, so the 250ms settle delay is
performed on every mount attempt that reaches the hardware, not only the
first one.  Concrete run: from boot, a first attempt fails the liveness
probe (card offline); the second attempt performs the settle delay
again. -/
theorem settle_delay_on_every_attempt :
    ∃ s₁ ev₁ ev₂,
      SdPwr.attempt_sd_mount ⟨true, false, true⟩ SdPwr.bootState =
        .ok false s₁ ev₁ ∧
      .settleDelay ∈ ev₁ ∧
      s₁.firstInit = true ∧
      SdPwr.attempt_sd_mount ⟨true, false, true⟩ s₁ =
        .ok false s₁ ev₂ ∧
      .settleDelay ∈ ev₂ := by
  refine ⟨⟨false, false, false, true⟩,
    [.powerOff, .busOpen, .settleDelay, .powerOn, .probe, .busClose,
      .powerOff],
    [.powerOff, .busOpen, .settleDelay, .powerOn, .probe, .busClose,
      .powerOff], ?_, ?_, ?_, ?_, ?_⟩ <;> decide

namespace Fwd

/-- Global forwarding state of the direct-forwarding variant
(uart_logger.c of the final architecture, src/unnamed/part_001):
the owner of LOG_FORWARD_MUTEX (held across the whole session, `none`
when unheld), FORWARD_UART_LOGS, and CONTEXT (the session whose CLI
context receives forwarded bytes).  Sessions are identified by task
ids.  LOG_VAR_MUTEX is acquired and released inside each operation, so
it does not appear in the state. -/
structure FwdState where
  fwdMutex : Option Nat
  forwardLogs : Bool
  context : Option Nat
  deriving DecidableEq, Repr

/-- State at boot: mutex unheld, forwarding off, no context. -/
def fwdInit : FwdState :=
  { fwdMutex := none, forwardLogs := false, context := none }

/-- Model of enable_log_forwarding (part_001 lines 146-167), called by
task `t`.  pthread_mutex_trylock(LOG_FORWARD_MUTEX) fails without
blocking whenever the mutex is held, and the function returns -1 with
nothing mutated; otherwise the caller takes the mutex (and keeps it
until it stops forwarding), sets FORWARD_UART_LOGS under LOG_VAR_MUTEX
and records its context, returning 0. -/
def enable_log_forwarding (t : Nat) (s : FwdState) : Int × FwdState :=
  match s.fwdMutex with
  | some _ => (-1, s)
  | none =>
    (0, { fwdMutex := some t, forwardLogs := true, context := some t })

/-- Model of disable_log_forwarding (part_001 lines 174-198), called by
task `t`.  Under LOG_VAR_MUTEX it attempts
pthread_mutex_unlock(LOG_FORWARD_MUTEX); the unlock fails (EPERM) unless
the calling task is the mutex owner — the behaviour the source's own
comments rely on — in which case nothing is mutated and -1 is returned.
If the caller is the owner, the mutex is released, FORWARD_UART_LOGS is
cleared and CONTEXT reset, returning 0. -/
def disable_log_forwarding (t : Nat) (s : FwdState) : Int × FwdState :=
  match s.fwdMutex with
  | some o =>
    if o = t then
      (0, { fwdMutex := none, forwardLogs := false, context := none })
    else
      (-1, s)
  | none => (-1, s)

/-- States reachable from boot through the forwarding operations. -/
inductive FwdReachable : FwdState → Prop
  | init : FwdReachable fwdInit
  | enable (s : FwdState) (t : Nat) :
      FwdReachable s → FwdReachable (enable_log_forwarding t s).2
  | disable (s : FwdState) (t : Nat) :
      FwdReachable s → FwdReachable (disable_log_forwarding t s).2

end Fwd

namespace Reader

/-- Global state of the relay-task variant (uart_log_reader_task.c,
embedded in src/uart_logger.c lines 40-193): the owner of
LOG_READER_CTX_MUTEX, the CONTEXT global, whether the relay task is in
its running loop, and FORWARD_UART_LOGS of the queue-based logger. -/
structure ReaderState where
  ctxMutex : Option Nat
  context : Option Nat
  readerRunning : Bool
  forwardLogs : Bool
  deriving DecidableEq, Repr

/-- Model of stop_log_reader (uart_logger.c lines 165-193), called by
task `t`.  If CONTEXT is NULL the reader is not running and 0 is
returned immediately with nothing touched.  Otherwise the semaphore
post / acknowledgment handshake makes the relay task leave its loop,
disable forwarding and clear CONTEXT; the caller then drops
LOG_READER_CTX_MUTEX — if it is not the owner the unlock fails, the
semaphore is posted again to restart the relay task and -1 is
returned. -/
def stop_log_reader (t : Nat) (s : ReaderState) : Int × ReaderState :=
  if s.context = none then
    (0, s)
  else
    let s₁ : ReaderState :=
      { ctxMutex := s.ctxMutex, context := none, readerRunning := false,
        forwardLogs := false }
    match s₁.ctxMutex with
    | some o =>
      if o = t then (0, { s₁ with ctxMutex := none })
      else (-1, { s₁ with readerRunning := true })
    | none => (-1, { s₁ with readerRunning := true })

/-- Outcome of start_log_reader: either the caller acquired the context
mutex and started the relay, or the mutex is already held by the session
that started the running reader, so the blocking pthread_mutex_lock
suspends the caller until that reader terminates. -/
inductive StartOutcome
  | started (s : ReaderState)
  | blocksUntilReaderStops
  deriving DecidableEq, Repr

/-- Model of start_log_reader (uart_logger.c lines 89-104), called by
task `t`.  It takes LOG_READER_CTX_MUTEX with a blocking
pthread_mutex_lock — the first starter deliberately keeps the mutex
locked until stop, so while a reader is running a second start does not
fail: it blocks until the running reader terminates.  On acquisition it
sets CONTEXT and posts log_reader_sem; the woken relay task enters its
loop and enables forwarding. -/
def start_log_reader (t : Nat) (s : ReaderState) : StartOutcome :=
  match s.ctxMutex with
  | some _ => .blocksUntilReaderStops
  | none =>
    .started
      { ctxMutex := some t, context := some t, readerRunning := true,
        forwardLogs := true }

end Reader

/-- C4 counterexample: the relay-variant start, start_log_reader, while
session 0's reader is running (it holds LOG_READER_CTX_MUTEX).  A second
start by session 1 does not fail immediately with a Busy error: the
blocking pthread_mutex_lock suspends it until the running reader
terminates, refuting the claim for this cited start implementation. -/
theorem start_log_reader_blocks_while_held :
    Reader.start_log_reader 1 ⟨some 0, some 0, true, true⟩ =
      .blocksUntilReaderStops := by
  decide

/-- C4 amended: ownership is exclusive in every reachable forwarding
state (at most one task holds LOG_FORWARD_MUTEX).  A second start while
ownership is held fails immediately with -1 and mutates nothing in the
final architecture's enable_log_forwarding (pthread_mutex_trylock is
non-blocking and nothing is queued); the relay-variant start_log_reader
instead blocks on the held context mutex until the running reader
terminates, rather than failing Busy. -/
theorem start_busy_behavior (s : Fwd.FwdState) (r : Reader.ReaderState)
    (t u o p : Nat) (_hreach : Fwd.FwdReachable s)
    (hs : s.fwdMutex = some o) (hp : r.ctxMutex = some p) :
    (∀ t₁ t₂, s.fwdMutex = some t₁ → s.fwdMutex = some t₂ → t₁ = t₂) ∧
      Fwd.enable_log_forwarding t s = (-1, s) ∧
      Reader.start_log_reader u r = .blocksUntilReaderStops := by
  refine ⟨fun t₁ t₂ h₁ h₂ => ?_, ?_, ?_⟩
  · rw [h₁] at h₂
    exact (Option.some.injEq _ _).mp h₂
  · unfold Fwd.enable_log_forwarding
    rw [hs]
  · unfold Reader.start_log_reader
    rw [hp]

/-- Witness for C4 (amended): after session 0 enables forwarding from
boot the state is reachable and a second enable by session 1 fails with
-1 leaving it unchanged, while a second start_log_reader against a
running reader blocks. -/
theorem start_busy_behavior_witness :
    Fwd.enable_log_forwarding 1 (Fwd.enable_log_forwarding 0 Fwd.fwdInit).2 =
        (-1, (Fwd.enable_log_forwarding 0 Fwd.fwdInit).2) ∧
      Reader.start_log_reader 1 ⟨some 0, some 0, true, true⟩ =
        .blocksUntilReaderStops :=
  ⟨(start_busy_behavior (Fwd.enable_log_forwarding 0 Fwd.fwdInit).2
      ⟨some 0, some 0, true, true⟩ 1 1 0 0
      (Fwd.FwdReachable.enable Fwd.fwdInit 0 Fwd.FwdReachable.init)
      (by decide) (by decide)).2.1,
    (start_busy_behavior (Fwd.enable_log_forwarding 0 Fwd.fwdInit).2
      ⟨some 0, some 0, true, true⟩ 1 1 0 0
      (Fwd.FwdReachable.enable Fwd.fwdInit 0 Fwd.FwdReachable.init)
      (by decide) (by decide)).2.2⟩

/-- C5 counterexample: in the boot state no session owns forwarding, yet
disable_log_forwarding — the stop operation of the final architecture —
returns -1 (the permission error), not success, because unlocking the
unheld LOG_FORWARD_MUTEX fails for any caller. -/
theorem disable_log_forwarding_no_owner_errors :
    Fwd.disable_log_forwarding 0 Fwd.fwdInit = (-1, Fwd.fwdInit) ∧
      (Fwd.disable_log_forwarding 0 Fwd.fwdInit).1 ≠ 0 := by
  decide

/-- C5 amended: a stop with no forwarding owner never mutates the
forwarding-enabled flag or the owner identity, but the two stop
implementations disagree on the result: the relay-variant
stop_log_reader returns success (0) immediately, while the final
disable_log_forwarding returns the permission error (-1). -/
theorem stop_no_owner_behavior (s : Fwd.FwdState) (r : Reader.ReaderState)
    (t u : Nat) (hs : s.fwdMutex = none) (hr : r.context = none) :
    Fwd.disable_log_forwarding t s = (-1, s) ∧
      Reader.stop_log_reader u r = (0, r) := by
  constructor
  · unfold Fwd.disable_log_forwarding
    rw [hs]
  · unfold Reader.stop_log_reader
    rw [hr]
    simp

/-- Witness for C5 (amended): concrete no-owner states for both stop
implementations. -/
theorem stop_no_owner_behavior_witness :
    Fwd.disable_log_forwarding 2 ⟨none, false, none⟩ =
        (-1, ⟨none, false, none⟩) ∧
      Reader.stop_log_reader 3 ⟨none, none, false, false⟩ =
        (0, ⟨none, none, false, false⟩) :=
  stop_no_owner_behavior ⟨none, false, none⟩ ⟨none, none, false, false⟩
    2 3 (by decide) (by decide)

/-- C6: while session A owns forwarding, a stop by a different session B
fails with the distinct permission error -1 and leaves the owner's
forwarding state — the enabled flag, the owner identity and the
context — completely unchanged. -/
theorem disable_log_forwarding_non_owner (s : Fwd.FwdState) (a b : Nat)
    (hown : s.fwdMutex = some a) (hne : b ≠ a) :
    Fwd.disable_log_forwarding b s = (-1, s) := by
  unfold Fwd.disable_log_forwarding
  rw [hown]
  exact if_neg (fun h : a = b => hne h.symm)

/-- Witness for C6: session 1 cannot stop forwarding owned by
session 0. -/
theorem disable_log_forwarding_non_owner_witness :
    Fwd.disable_log_forwarding 1 ⟨some 0, true, some 0⟩ =
      (-1, ⟨some 0, true, some 0⟩) :=
  disable_log_forwarding_non_owner ⟨some 0, true, some 0⟩ 0 1
    (by decide) (by decide)

/-- C3 counterexample: a write that fails right after a successful
mount.  write_sd itself is recoverable — it returns -1 and the state
(in particular SD_CARD_MOUNTED) is untouched — but the ingestion task's
loop body reacts to that single failed write with System_abort,
contradicting the claim that it does not abort the process. -/
theorem logger_aborts_on_single_write_failure :
    SdCard.write_sd none ⟨true, true, true, true, false⟩ =
        (-1, ⟨true, true, true, true, false⟩) ∧
      (SdCard.write_sd none ⟨true, true, true, true, false⟩).2.mounted =
        true ∧
      SdCard.logger_loop_body false none ⟨true, true, true, true, false⟩ =
        .sysAbort := by
  decide

/-- C3 amended: for every write that fails after a successful mount,
write_sd returns the error result -1 (it never aborts) and leaves the
state — including the Mounted flag — unchanged, so a retry is possible
at the storage layer; however the ingestion task aborts the process on
that single failed write. -/
theorem write_sd_error_recoverable_but_logger_aborts (s : SdCard.SdState)
    (forward : Bool) (hm : s.mounted = true) :
    SdCard.write_sd none s = (-1, s) ∧
      (SdCard.write_sd none s).2.mounted = true ∧
      SdCard.logger_loop_body forward none s = .sysAbort := by
  refine ⟨rfl, by rw [show SdCard.write_sd none s = (-1, s) from rfl]; exact hm, ?_⟩
  unfold SdCard.logger_loop_body
  rw [hm]
  simp [SdCard.write_sd]

/-- Witness for C3 (amended): the concrete mounted state of the
counterexample. -/
theorem write_sd_error_recoverable_but_logger_aborts_witness :
    SdCard.write_sd none ⟨true, false, true, true, false⟩ =
        (-1, ⟨true, false, true, true, false⟩) ∧
      (SdCard.write_sd none ⟨true, false, true, true, false⟩).2.mounted =
        true ∧
      SdCard.logger_loop_body true none ⟨true, false, true, true, false⟩ =
        .sysAbort :=
  write_sd_error_recoverable_but_logger_aborts
    ⟨true, false, true, true, false⟩ true (by decide)

namespace Cli

/-- CLI_MAX_LINE from cli.h: maximum command length (one slot of the
80-byte buffer is reserved for the terminating NUL, so the content cap
enforced by start_cli is CLI_MAX_LINE - 1). -/
def CLI_MAX_LINE : Nat := 80

/-- CLI_HISTORY from cli.h: past commands kept. -/
def CLI_HISTORY : Nat := 3

/-- CLI_BUFCNT from cli.h: history ring size (one extra usable slot plus
the lookahead sentinel). -/
def CLI_BUFCNT : Nat := CLI_HISTORY + 2

/-- CLI_EMPTY_LINELEN from cli.c: marks an unused history slot. -/
def CLI_EMPTY_LINELEN : Int := -1

/-- The per-line state the printable-byte case of start_cli operates on:
the current line buffer, its content length and the cursor offset. -/
structure LineState where
  line_buf : List Char
  len : Nat
  cursor : Nat
  deriving DecidableEq, Repr

/-- Model of the default (printable byte) case of start_cli's switch
(src/unnamed/part_008 lines 113-131): if the content length has reached
CLI_MAX_LINE - 1 the byte is dropped without echo; otherwise the byte is
echoed, stored at the cursor, the cursor advances, and the length grows
exactly when the new cursor position passed the previous end of
content.  The returned list is what is echoed to the terminal. -/
def start_cli_printable (c : Char) (s : LineState) : LineState × List Char :=
  if s.len ≥ CLI_MAX_LINE - 1 then
    (s, [])
  else
    ({ line_buf := s.line_buf.set s.cursor c,
       len := if s.cursor + 1 > s.len then s.cursor + 1 else s.len,
       cursor := s.cursor + 1 },
      [c])

/-- One slot of the history ring (CLI_Line in cli.h): the stored
characters and the length, with CLI_EMPTY_LINELEN marking an empty
slot. -/
structure CLI_Line where
  line_buf : List Char
  len : Int
  deriving DecidableEq, Repr

/-- The console context fields cli_handle_esc uses (CLIContext in
cli.h): the ring of CLI_BUFCNT line slots, the current line index and
the cursor offset within the current line. -/
structure CLIContext where
  lines : List CLI_Line
  line_idx : Nat
  cursor : Nat
  deriving DecidableEq, Repr

/-- Model of move_line_index (src/unnamed/part_008 lines 294-311):
increment or decrement the line index, wrapping at CLI_BUFCNT. -/
def move_line_index (forwards : Bool) (idx : Nat) : Nat :=
  if forwards then
    if idx + 1 = CLI_BUFCNT then 0 else idx + 1
  else
    if idx = 0 then CLI_BUFCNT - 1 else idx - 1

/-- The console prompt "-> ". -/
def CLI_PROMPT : List Char := ['-', '>', ' ']

/-- The VT-100 clear-line sequence written before redisplaying a history
entry. -/
def CLEAR_LINE : List Char := ['\x1b', '[', '2', 'K', '\r']

/-- Model of cli_handle_esc (src/unnamed/part_008 lines 201-286), given
the two bytes read after ESC.  Returns the new context and the bytes
written to the terminal.  If the first byte is not '[' the two bytes are
echoed verbatim.  Up/down arrows move the line index backward/forward;
if the target slot is empty the index move is undone, otherwise the slot
becomes current, the cursor goes to its end and the line is redisplayed
(clear line, prompt, content).  Right/left arrows move the cursor within
the line bounds and re-emit the escape sequence. -/
def cli_handle_esc (ctx : CLIContext) (esc0 esc1 : Char) :
    CLIContext × List Char :=
  if esc0 ≠ '[' then
    (ctx, [esc0, esc1])
  else if esc1 = 'A' then
    let idx' := move_line_index false ctx.line_idx
    let tgt := ctx.lines.getD idx' ⟨[], CLI_EMPTY_LINELEN⟩
    if tgt.len ≠ CLI_EMPTY_LINELEN then
      ({ lines := ctx.lines, line_idx := idx', cursor := tgt.len.toNat },
        CLEAR_LINE ++ CLI_PROMPT ++ tgt.line_buf.take tgt.len.toNat)
    else
      ({ lines := ctx.lines, line_idx := move_line_index true idx',
         cursor := ctx.cursor }, [])
  else if esc1 = 'B' then
    let idx' := move_line_index true ctx.line_idx
    let tgt := ctx.lines.getD idx' ⟨[], CLI_EMPTY_LINELEN⟩
    if tgt.len ≠ CLI_EMPTY_LINELEN then
      ({ lines := ctx.lines, line_idx := idx', cursor := tgt.len.toNat },
        CLEAR_LINE ++ CLI_PROMPT ++ tgt.line_buf.take tgt.len.toNat)
    else
      ({ lines := ctx.lines, line_idx := move_line_index false idx',
         cursor := ctx.cursor }, [])
  else if esc1 = 'C' then
    let cur := ctx.lines.getD ctx.line_idx ⟨[], CLI_EMPTY_LINELEN⟩
    if (ctx.cursor : Int) ≠ cur.len then
      ({ ctx with cursor := ctx.cursor + 1 }, ['\x1b', esc0, esc1])
    else
      (ctx, [])
  else if esc1 = 'D' then
    if ctx.cursor ≠ 0 then
      ({ ctx with cursor := ctx.cursor - 1 }, ['\x1b', esc0, esc1])
    else
      (ctx, [])
  else
    (ctx, [])

/-- Moving the line index back and then forward returns to the start,
for any in-range index. -/
theorem move_line_index_back_forward (i : Nat) (h : i < CLI_BUFCNT) :
    move_line_index true (move_line_index false i) = i := by
  unfold move_line_index CLI_BUFCNT CLI_HISTORY at *
  interval_cases i <;> rfl

/-- Moving the line index forward and then back returns to the start,
for any in-range index. -/
theorem move_line_index_forward_back (i : Nat) (h : i < CLI_BUFCNT) :
    move_line_index false (move_line_index true i) = i := by
  unfold move_line_index CLI_BUFCNT CLI_HISTORY at *
  interval_cases i <;> rfl

end Cli

/-- C8: the printable-byte policy of the line editor.  When the content
length has already reached the line capacity (CLI_MAX_LINE - 1, the
80-byte buffer minus the NUL slot), the byte is dropped: nothing is
echoed and buffer, length and cursor are unchanged.  Below capacity the
byte is echoed and stored at the cursor, the cursor advances, and the
length grows exactly when the cursor was at the tail of the content. -/
theorem printable_byte_capacity_policy (c : Char) (s : Cli.LineState)
    (hwf : s.cursor ≤ s.len) :
    (s.len = Cli.CLI_MAX_LINE - 1 → Cli.start_cli_printable c s = (s, [])) ∧
    (s.len < Cli.CLI_MAX_LINE - 1 →
      Cli.start_cli_printable c s =
        ({ line_buf := s.line_buf.set s.cursor c,
           len := if s.cursor = s.len then s.len + 1 else s.len,
           cursor := s.cursor + 1 }, [c])) := by
  constructor
  · intro hcap
    unfold Cli.start_cli_printable
    rw [if_pos (le_of_eq hcap.symm)]
  · intro hlt
    unfold Cli.start_cli_printable
    rw [if_neg (by omega)]
    have hlen : (if s.cursor + 1 > s.len then s.cursor + 1 else s.len) =
        (if s.cursor = s.len then s.len + 1 else s.len) := by
      by_cases h : s.cursor = s.len
      · rw [if_pos (by omega), if_pos h, h]
      · rw [if_neg (by omega), if_neg h]
    rw [hlen]

/-- Witness for C8: at the 79-character cap an additional byte is
dropped with no echo; below the cap a byte typed with the cursor at the
tail is stored, echoed and extends the length. -/
theorem printable_byte_capacity_policy_witness :
    Cli.start_cli_printable 'x' ⟨List.replicate 80 'a', 79, 79⟩ =
        (⟨List.replicate 80 'a', 79, 79⟩, []) ∧
      Cli.start_cli_printable 'x' ⟨['a', 'b'], 1, 1⟩ =
        (⟨['a', 'x'], 2, 2⟩, ['x']) :=
  ⟨(printable_byte_capacity_policy 'x' ⟨List.replicate 80 'a', 79, 79⟩
        (by decide)).1 (by decide),
    ((printable_byte_capacity_policy 'x' ⟨['a', 'b'], 1, 1⟩
        (by decide)).2 (by decide)).trans (by decide)⟩

/-- C9: history navigation to an empty slot is a no-op.  For an
up-arrow (ESC [ A) whose chronologically-previous slot is marked empty,
and for a down-arrow (ESC [ B) whose next slot is marked empty, the
context — history index, line contents, cursor — is returned unchanged
and nothing is written to the display, so repeated "up" presses stop
advancing at the oldest non-empty entry. -/
theorem history_empty_slot_noop (ctx : Cli.CLIContext)
    (h5 : ctx.line_idx < Cli.CLI_BUFCNT) :
    ((ctx.lines.getD (Cli.move_line_index false ctx.line_idx)
          ⟨[], Cli.CLI_EMPTY_LINELEN⟩).len = Cli.CLI_EMPTY_LINELEN →
        Cli.cli_handle_esc ctx '[' 'A' = (ctx, [])) ∧
      ((ctx.lines.getD (Cli.move_line_index true ctx.line_idx)
          ⟨[], Cli.CLI_EMPTY_LINELEN⟩).len = Cli.CLI_EMPTY_LINELEN →
        Cli.cli_handle_esc ctx '[' 'B' = (ctx, [])) := by
  obtain ⟨ls, li, cu⟩ := ctx
  simp only at h5
  constructor
  · intro hA
    simp only [List.getD, List.get?_eq_getElem?] at hA
    simp [Cli.cli_handle_esc, hA, List.getD,
      Cli.move_line_index_back_forward li h5]
  · intro hB
    simp only [List.getD, List.get?_eq_getElem?] at hB
    simp [Cli.cli_handle_esc, hB, List.getD,
      Cli.move_line_index_forward_back li h5]

/-- Witness for C9: in a fresh context whose history ring is entirely
empty, both arrow directions are no-ops. -/
theorem history_empty_slot_noop_witness :
    Cli.cli_handle_esc
        ⟨List.replicate 5 ⟨[], Cli.CLI_EMPTY_LINELEN⟩, 0, 0⟩ '[' 'A' =
        (⟨List.replicate 5 ⟨[], Cli.CLI_EMPTY_LINELEN⟩, 0, 0⟩, []) ∧
      Cli.cli_handle_esc
        ⟨List.replicate 5 ⟨[], Cli.CLI_EMPTY_LINELEN⟩, 0, 0⟩ '[' 'B' =
        (⟨List.replicate 5 ⟨[], Cli.CLI_EMPTY_LINELEN⟩, 0, 0⟩, []) :=
  ⟨(history_empty_slot_noop
        ⟨List.replicate 5 ⟨[], Cli.CLI_EMPTY_LINELEN⟩, 0, 0⟩
        (by decide)).1 (by decide),
    (history_empty_slot_noop
        ⟨List.replicate 5 ⟨[], Cli.CLI_EMPTY_LINELEN⟩, 0, 0⟩
        (by decide)).2 (by decide)⟩

namespace Cmds

/-- Model of the first strtok_r call in handle_command (commands.c lines
85-100) with delimiter " ": skip leading spaces; if nothing remains the
result is NULL (`none`), otherwise the maximal run of non-space
characters. -/
def strtok_first (cmd : List Char) : Option (List Char) :=
  match cmd.dropWhile (fun ch => ch == ' ') with
  | [] => none
  | ch :: rest => some ((ch :: rest).takeWhile (fun ch2 => ch2 != ' '))

/-- The static command table names (commands.c lines 57-77). -/
def COMMANDS : List (List Char) :=
  [ "help".toList, "mount".toList, "unmount".toList, "sdstatus".toList,
    "sdpwr".toList, "write_sd".toList, "filesize".toList,
    "write_timestamp".toList, "connect_log".toList,
    "disconnect_log".toList, "rtt".toList ]

/-- Outcome of handle_command's table walk: a handler was invoked, the
generic unknown-command message was printed, or the walk performed
strncmp(entry->cmd_name, NULL, ...) — the null first token reaching the
string comparison unchecked. -/
inductive DispatchResult
  | ran (idx : Nat)
  | unknownCmd
  | nullDeref
  deriving DecidableEq, Repr

/-- Model of handle_command (commands.c lines 85-112): tokenize the line
with strtok_r and compare the first token against the table in order.
When strtok_r returns NULL (whitespace-only input) the comparison
dereferences the null pointer. -/
def handle_command (cmd : List Char) : DispatchResult :=
  match strtok_first cmd with
  | none => .nullDeref
  | some tok =>
    match COMMANDS.findIdx? (fun n => n == tok) with
    | some i => .ran i
    | none => .unknownCmd

/-- Model of the dispatch gate in cli_handle_return (src/unnamed/part_008
lines 144-164): a submitted line is handed to handle_command unless its
length is zero (only length-zero submissions are filtered out). -/
def cli_handle_return_dispatch (line : List Char) :
    Option DispatchResult :=
  if line.length = 0 then none
  else some (handle_command line)

end Cmds

/-- C10: dispatch is only safe for lines with a non-delimiter
character.  A submitted line containing at least one non-space character
yields a non-null first token and the table walk never compares against
a null pointer; a whitespace-only line of non-zero length is still
dispatched (only empty submissions are filtered) and its null first
token reaches the string comparison unchecked. -/
theorem command_dispatch_token_safety (line : List Char) :
    ((∃ ch ∈ line, ch ≠ ' ') →
        ∃ tok, Cmds.strtok_first line = some tok ∧
          Cmds.handle_command line ≠ .nullDeref) ∧
      (line ≠ [] → (∀ ch ∈ line, ch = ' ') →
        Cmds.strtok_first line = none ∧
          Cmds.cli_handle_return_dispatch line = some .nullDeref) := by
  constructor
  · rintro ⟨ch, hmem, hne⟩
    have hdrop : line.dropWhile (fun c => c == ' ') ≠ [] := by
      intro hnil
      have hall := List.dropWhile_eq_nil_iff.mp hnil
      exact hne (by simpa using hall ch hmem)
    cases hd : line.dropWhile (fun c => c == ' ') with
    | nil => exact absurd hd hdrop
    | cons a as =>
      refine ⟨(a :: as).takeWhile (fun c2 => c2 != ' '), ?_, ?_⟩
      · unfold Cmds.strtok_first
        rw [hd]
      · unfold Cmds.handle_command Cmds.strtok_first
        rw [hd]
        cases hfind : Cmds.COMMANDS.findIdx?
            (fun n => n == (a :: as).takeWhile (fun c2 => c2 != ' ')) <;>
          simp [hfind]
  · intro hne hall
    have hdrop : line.dropWhile (fun c => c == ' ') = [] :=
      List.dropWhile_eq_nil_iff.mpr (fun x hx => by simp [hall x hx])
    have hfirst : Cmds.strtok_first line = none := by
      unfold Cmds.strtok_first
      rw [hdrop]
    refine ⟨hfirst, ?_⟩
    unfold Cmds.cli_handle_return_dispatch
    rw [if_neg (by simpa using hne)]
    unfold Cmds.handle_command
    rw [hfirst]

/-- Witness for C10: the line "mount" dispatches safely, while the
single-space line — non-empty, hence dispatched — drives a null token
into the comparison. -/
theorem command_dispatch_token_safety_witness :
    (∃ tok, Cmds.strtok_first "mount".toList = some tok ∧
        Cmds.handle_command "mount".toList ≠ .nullDeref) ∧
      (Cmds.strtok_first [' '] = none ∧
        Cmds.cli_handle_return_dispatch [' '] = some .nullDeref) :=
  ⟨(command_dispatch_token_safety "mount".toList).1
      ⟨'m', by decide, by decide⟩,
    (command_dispatch_token_safety [' ']).2 (by decide)
      (fun ch hch => by simpa using hch)⟩
